import Mathlib

/-!
Verification development for the lokaalbeslist-subscription-service.

The service persists subscription filters in a SPARQL triple store.  We give a
shallow embedding of the most complete variant of `src/queries.js` (the second
segment of the file, which exports `createFilter`, `findFilter`,
`createConstraint`, `findConstraint` and `addSubscription`) together with
`verifyConstraint` from `src/helpers.js`.

Embedding conventions, used throughout:

* The graph store is a list of triples (`Store`).  SPARQL `INSERT` appends the
  triples a query's INSERT template denotes; `SELECT`/`ASK` patterns become
  list filters.  SPARQL gives no ordering guarantee on solution sequences;
  wherever the code depends on an order the store does not promise
  (`GROUP_CONCAT` in `findFilter`), the model takes the store's chosen order as
  an explicit permutation parameter.
* `uuid()` (from the `mu` package) is a fresh-identifier generator; it is
  modelled as a counter threaded through every operation.  Identifiers minted
  for list nodes, user URIs and email URIs get distinct `Term` constructors,
  mirroring their distinct URI prefixes, so freshly minted URIs never collide
  with each other or with literally written URIs.
* A string interpolated into a query denotes the term it names; JS `undefined`
  interpolated into a template literal is modelled by `Term.undefined`.
* `escapeSparqlString` (imported from helpers.js but not present in the
  repository sources) escapes a string against the store's quoting rules; at
  the level of stored values the escaping is cancelled by the store's literal
  parsing, so the model stores the unescaped value directly.
* Asynchronous code is sequentialised in issue order: the store processes
  requests in the order the service issues them, and a promise settled by
  several racing continuations takes the first-issued settlement.
-/

/-- An RDF term as it occurs in the queries built by `src/queries.js`.
`named` is a URI or prefixed name written literally into a query; `listNode`,
`userNode` and `emailNode` are URIs minted with `uuid()` under the
`subscriptions/list/`, `subscriptions/users/` and `id/emails/` prefixes;
`lit` is a string literal, `num` a numeric literal, `undefined` the result of
interpolating JS `undefined`, and `nil` is `rdf:nil`. -/
inductive Term where
  | named (s : String)
  | listNode (n : Nat)
  | userNode (n : Nat)
  | emailNode (n : Nat)
  | lit (s : String)
  | num (n : Nat)
  | undefined
  | nil
deriving DecidableEq, Repr

/-- One RDF triple; predicates are kept as the prefixed names written in the
queries. -/
structure Triple where
  s : Term
  p : String
  o : Term
deriving DecidableEq, Repr

/-- The graph store: the set of facts in the subscriptions graph, as a list. -/
abbrev Store := List Triple

/-- The string JS interpolates for a value that may be `undefined`. -/
def jsStr : Option String → String
  | some s => s
  | none => "undefined"

/-- JS array indexing `items[i]`: `undefined` (`none`) outside the range. -/
def jsIndex (items : List String) (i : Int) : Option String :=
  if i < 0 then none else items[i.toNat]?

/-- The term a (possibly `undefined`) interpolated item denotes as the object
of `rdf:first` in the generated query text. -/
def jsFragment : Option String → Term
  | some s => .named s
  | none => .undefined

/-- The loop of `createListQuery` (queries.js): for each item except the last
it emits `<currentNode> rdf:first item; rdf:rest <nextNode>.` where
`nextNode` is freshly minted by `listURI()`.  `cur` is the current node,
`c` the uuid counter.  Returns the emitted triples, the node left in
`currentNode` after the loop, and the advanced counter. -/
def chainLoop (cur : Nat) (c : Nat) : List String → List Triple × Nat × Nat
  | [] => ([], cur, c)
  | x :: xs =>
    let nextNode := c
    let rec_ := chainLoop nextNode (c + 1) xs
    (⟨.listNode cur, "rdf:first", .named x⟩ ::
       ⟨.listNode cur, "rdf:rest", .listNode nextNode⟩ :: rec_.1,
     rec_.2.1, rec_.2.2)

/-- `createListQuery(items)` (queries.js lines 93-111, identical in every
variant up to escaping): mints a head node with `listURI()`, runs the loop
over `items[0..length-2]` (the list without its last element), then appends
`<currentNode> rdf:first items[items.length-1]; rdf:rest rdf:nil`.  The
returned string is the head reference plus the chain triples; here it is the
head node id, the denoted triples, and the advanced uuid counter.  Note the
final `rdf:first` object is `items[items.length-1]`, which for an empty input
is the interpolated JS `undefined`. -/
def createListQuery (c : Nat) (items : List String) : Nat × List Triple × Nat :=
  let currentNode := c
  let loop := chainLoop currentNode (c + 1) items.dropLast
  (currentNode,
   loop.1 ++
     [⟨.listNode loop.2.1, "rdf:first",
        jsFragment (jsIndex items ((items.length : Int) - 1))⟩,
      ⟨.listNode loop.2.1, "rdf:rest", .nil⟩],
   loop.2.2)

/-- The chain the specification describes: one fresh node per item (node
`c + k` for the `k`-th item), each node's `rdf:first` is its item, its
`rdf:rest` the next fresh node, and the last node's `rdf:rest` is `rdf:nil`. -/
def chainTriples (c : Nat) : List String → List Triple
  | [] => []
  | [x] => [⟨.listNode c, "rdf:first", .named x⟩, ⟨.listNode c, "rdf:rest", .nil⟩]
  | x :: y :: xs =>
    ⟨.listNode c, "rdf:first", .named x⟩ ::
      ⟨.listNode c, "rdf:rest", .listNode (c + 1)⟩ :: chainTriples (c + 1) (y :: xs)

example : createListQuery 0 ["a", "b"] =
    (0, [⟨.listNode 0, "rdf:first", .named "a"⟩,
         ⟨.listNode 0, "rdf:rest", .listNode 1⟩,
         ⟨.listNode 1, "rdf:first", .named "b"⟩,
         ⟨.listNode 1, "rdf:rest", .nil⟩], 2) := by decide

example : createListQuery 0 ["a", "b"] = (0, chainTriples 0 ["a", "b"], 2) := by decide

example : createListQuery 5 [] =
    (5, [⟨.listNode 5, "rdf:first", .undefined⟩, ⟨.listNode 5, "rdf:rest", .nil⟩], 6) := by decide

/-- A mapped field path: either a single prefixed name or a freshly encoded
multi-hop chain (head node plus its chain triples). -/
inductive PathExpr where
  | direct (s : String)
  | chain (head : Nat) (facts : List Triple)
deriving DecidableEq, Repr

/-- The term a `PathExpr` contributes as the object of `sh:path`. -/
def PathExpr.term : PathExpr → Term
  | .direct s => .named s
  | .chain h _ => .listNode h

/-- The extra chain triples a `PathExpr` contributes to an INSERT. -/
def PathExpr.facts : PathExpr → List Triple
  | .direct _ => []
  | .chain _ f => f

/-- The field vocabulary accepted by `mapSubject`. -/
def fieldVocab : List String :=
  ["title", "description", "sessionLocation", "sessionDate", "governanceArea"]

/-- `mapSubject(subject)` (queries.js): switch over the field vocabulary;
multi-hop fields build an RDF list with `createListQuery`, so the uuid
counter is threaded through.  Any name outside the vocabulary falls through
the switch and yields `undefined` (`none`). -/
def mapSubject (c : Nat) (subject : String) : Option (PathExpr × Nat) :=
  if subject == "title" then some (.direct "terms:title", c)
  else if subject == "description" then some (.direct "terms:description", c)
  else if subject == "sessionLocation" then
    let l := createListQuery c ["ext:zitting", "prov:atLocation"]
    some (.chain l.1 l.2.1, l.2.2)
  else if subject == "sessionDate" then
    let l := createListQuery c ["ext:zitting", "prov:startedAtTime"]
    some (.chain l.1 l.2.1, l.2.2)
  else if subject == "governanceArea" then
    let l := createListQuery c
      ["ext:zitting", "besluit:isGehoudenDoor", "besluit:bestuurt", "skos:prefLabel"]
    some (.chain l.1 l.2.1, l.2.2)
  else none

/-- A SHACL constraint fragment as produced by `mapPredicateObject`. -/
inductive ShaclFragment where
  | pattern (p : String) (flags : String)
  | minCount (n : Nat)
  | maxCount (n : Nat)
deriving DecidableEq, Repr

/-- The operator vocabulary accepted by `mapPredicateObject`. -/
def operatorVocab : List String :=
  ["textEquals", "governanceAreaEquals", "textContains", "exists", "notExists"]

/-- `mapPredicateObject(predicate, object)` (queries.js): switch over the
operator vocabulary; `textEquals`/`governanceAreaEquals` anchor the object
between `^` and `$`, `textContains` uses it unanchored, both case-insensitive;
`exists`/`notExists` are cardinality fragments.  Any operator outside the
vocabulary falls through and yields `undefined` (`none`). -/
def mapPredicateObject (predicate object : String) : Option ShaclFragment :=
  if predicate == "textEquals" || predicate == "governanceAreaEquals" then
    some (.pattern ("^" ++ object ++ "$") "i")
  else if predicate == "textContains" then some (.pattern object "i")
  else if predicate == "exists" then some (.minCount 1)
  else if predicate == "notExists" then some (.maxCount 0)
  else none

/-- The outcome of one of the service's promise-returning operations. -/
inductive PromiseResult where
  | resolved
  | rejected (msg : String)
deriving DecidableEq, Repr

/-- The triples a SHACL fragment asserts about a subject. -/
def shaclTriples (s : Term) : ShaclFragment → List Triple
  | .pattern p flags => [⟨s, "sh:pattern", .lit p⟩, ⟨s, "sh:flags", .lit flags⟩]
  | .minCount n => [⟨s, "sh:minCount", .num n⟩]
  | .maxCount n => [⟨s, "sh:maxCount", .num n⟩]

/-- `createConstraint(constraintUri, subject, predicate, object)` (queries.js
lines 665-700): maps the subject, rejecting with `Invalid subject: ...` when
the mapper yields `undefined`; maps the predicate/object, rejecting with
`Invalid predicate: ...`; otherwise INSERTs the three `ext:constraint*`
literals, the `sh:path` triple (plus any path chain triples) and the SHACL
fragment triples.  Returns the promise outcome, the store and the counter. -/
def createConstraint (store : Store) (c : Nat)
    (constraintUri subject predicate object : String) :
    PromiseResult × Store × Nat :=
  match mapSubject c subject with
  | none => (.rejected ("Invalid subject: " ++ subject), store, c)
  | some (newSubject, c₁) =>
    match mapPredicateObject predicate object with
    | none => (.rejected ("Invalid predicate: " ++ predicate), store, c₁)
    | some shaclConstraint =>
      (.resolved,
       store ++
         [⟨.named constraintUri, "ext:constraintSubject", .lit subject⟩,
          ⟨.named constraintUri, "ext:constraintPredicate", .lit predicate⟩,
          ⟨.named constraintUri, "ext:constraintObject", .lit object⟩,
          ⟨.named constraintUri, "sh:path", newSubject.term⟩] ++
         newSubject.facts ++ shaclTriples (.named constraintUri) shaclConstraint,
       c₁)

/-- The `value` a SPARQL binding reports for a term of the model. -/
def termValue : Term → String
  | .named s => s
  | .listNode n => "http://lokaalbeslist.be/subscriptions/list/" ++ Nat.repr n
  | .userNode n => "http://lokaalbeslist.be/subscriptions/users/" ++ Nat.repr n
  | .emailNode n => "http://lokaalbeslist.be/id/emails/" ++ Nat.repr n
  | .lit s => s
  | .num n => Nat.repr n
  | .undefined => "undefined"
  | .nil => "http://www.w3.org/1999/02/22-rdf-syntax-ns#nil"

/-- The object bound by the first solution of the pattern `s p ?x`, in store
order (SPARQL fixes no order; the model takes the store's list order). -/
def selectOne (store : Store) (s : Term) (p : String) : Option Term :=
  ((store.filter (fun t => t.s == s && t.p == p)).head?).map Triple.o

/-- JS `uri.split('/')`: the segments between `/` separators, in order
(empty segments included), computed by a structural fold over the
characters so that it evaluates inside the kernel. -/
def splitSlash (uri : String) : List String :=
  let step := fun (acc : List String × String) ch =>
    if ch = '/' then (acc.1 ++ [acc.2], "") else (acc.1, acc.2.push ch)
  let r := uri.data.foldl step ([], "")
  r.1 ++ [r.2]

/-- `uriParts[uriParts.length - 1]` after `uri.split('/')`. -/
def lastSegment (uri : String) : String := ((splitSlash uri).getLast?).getD ""

/-- A constraint as returned to the frontend. -/
structure ConstraintRec where
  cid : String
  subject : String
  predicate : String
  object : String
deriving DecidableEq, Repr

/-- `findConstraint(uri)` (queries.js lines 570-601): selects the
`ext:constraintSubject`/`Predicate`/`Object` bindings of the URI; with no
solutions it returns `undefined`, otherwise the first binding's values
together with the last URI segment as id. -/
def findConstraint (store : Store) (uri : String) : Option ConstraintRec :=
  match selectOne store (.named uri) "ext:constraintSubject",
        selectOne store (.named uri) "ext:constraintPredicate",
        selectOne store (.named uri) "ext:constraintObject" with
  | some s, some p, some o =>
    some ⟨lastSegment uri, termValue s, termValue p, termValue o⟩
  | _, _, _ => none

example : (createConstraint [] 0 "http://x/c1" "title" "textContains" "station").1 =
    .resolved := by decide

example :
    findConstraint
      (createConstraint [] 0 "http://x/c1" "title" "textContains" "station").2.1
      "http://x/c1" = some ⟨"c1", "title", "textContains", "station"⟩ := by decide

example : mapSubject 0 "not-a-real-field" = none := by decide

example : mapPredicateObject "not-a-real-op" "x" = none := by decide

/-- A JSON:API resource reference as sent by the frontend: its `type` and,
when present, its `id` (`none` models an absent `id` property). -/
structure JsonRef where
  type : String
  id : Option String
deriving DecidableEq, Repr

/-- The URI `createFilter` and `verifyConstraint` build for a constraint id. -/
def constraintUriOf (id : Option String) : String :=
  "http://lokaalbeslist.be/subscriptions/constraints/" ++ jsStr id

/-- The URI `createFilter` builds for a sub-filter id. -/
def filterUriOf (id : Option String) : String :=
  "http://lokaalbeslist.be/subscriptions/filters/" ++ jsStr id

/-- `verifyConstraint(constraint)` (helpers.js lines 16-30): false unless the
reference has type `subscription-filter-constraints` and an `id` property;
otherwise ASK whether the constraint URI has an `sh:path` triple. -/
def verifyConstraint (store : Store) (constraint : JsonRef) : Bool :=
  if constraint.type != "subscription-filter-constraints" || constraint.id.isNone then
    false
  else
    store.any (fun t => t.s == .named (constraintUriOf constraint.id) && t.p == "sh:path")

/-- Modelled from the spec: `verifyFilter` is imported by queries.js from
helpers.js but is missing from the repository sources.  Per the spec
(section 4.3 step b) it verifies that a sub-filter reference "resolves to an
existing, well-formed FilterNode (has a combinator edge)": false unless the
referenced filter URI carries an `sh:and` or `sh:or` edge in the store. -/
def verifyFilter (store : Store) (subFilter : JsonRef) : Bool :=
  match subFilter.id with
  | none => false
  | some _ =>
    store.any (fun t =>
      t.s == .named (filterUriOf subFilter.id) && (t.p == "sh:and" || t.p == "sh:or"))

/-- The invalid references of one optional reference list: the source runs the
verification only when the list is present and non-empty, and keeps the
references whose verification came back false. -/
def invalidRefs (verify : Store → JsonRef → Bool) (store : Store)
    (refs : Option (List JsonRef)) : List JsonRef :=
  match refs with
  | some rs => if rs.length > 0 then rs.filter (fun r => !(verify store r)) else []
  | none => []

/-- The rejection message a verification pass produces, exactly as the source
formats it: nothing when every reference verified, the single quoted id for
one invalid reference, and the ids joined by `', '` for several. -/
def refError (label : String) (invalid : List JsonRef) : Option String :=
  if invalid.length == 1 then
    some (label ++ ": '" ++ jsStr ((invalid.head?.map JsonRef.id).getD none) ++ "'.")
  else if invalid.length > 1 then
    some (label ++ ": '" ++
      String.intercalate "', '" (invalid.map (fun x => jsStr x.id)) ++ "'.")
  else none

/-- `createFilter(filterUri, requireAll, constraints, subFilters)` (queries.js
lines 763-841).  The source verifies the constraint references and the
sub-filter references, rejecting with the aggregated `Invalid constraint` /
`Invalid sub-filter` message; independently it builds `requirements` from
every submitted reference, rejects with `Need at least one constraint or
subFilter` when both lists are empty or absent, and otherwise INSERTs the
`sh:NodeShape` / `sh:targetClass` triples, the `sh:and` or `sh:or` edge, and
the `createListQuery` chain over the requirements.

The verification promises are started but never collected into the `promises`
array that gates the INSERT (`let promises = []` stays empty), so in the
source the INSERT is issued whenever `requirements` is non-empty, regardless
of the verification outcome; a verification failure merely rejects the
returned promise.  The model sequentialises this faithfully: when
`requirements` is non-empty the store is always extended, and the promise
outcome is the first-issued verification rejection if there is one. -/
def createFilter (store : Store) (c : Nat) (filterUri : String) (requireAll : Bool)
    (constraints subFilters : Option (List JsonRef)) :
    PromiseResult × Store × Nat :=
  let constraintErr := refError "Invalid constraint" (invalidRefs verifyConstraint store constraints)
  let subFilterErr := refError "Invalid sub-filter" (invalidRefs verifyFilter store subFilters)
  let requirements :=
    (constraints.getD []).map (fun r => constraintUriOf r.id) ++
      (subFilters.getD []).map (fun r => filterUriOf r.id)
  if requirements.length == 0 then
    (.rejected "Need at least one constraint or subFilter", store, c)
  else
    let chain := createListQuery c requirements
    let store' := store ++
      [⟨.named filterUri, "rdf:type", .named "sh:NodeShape"⟩,
       ⟨.named filterUri, "sh:targetClass", .named "besluit:Agendapunt"⟩,
       ⟨.named filterUri, (if requireAll then "sh:and" else "sh:or"), .listNode chain.1⟩] ++
      chain.2.1
    match constraintErr with
    | some e => (.rejected e, store', chain.2.2)
    | none =>
      match subFilterErr with
      | some e => (.rejected e, store', chain.2.2)
      | none => (.resolved, store', chain.2.2)

example :
    createFilter [] 0 "http://f/F" true none none =
      (.rejected "Need at least one constraint or subFilter", [], 0) := by decide

example :
    (createFilter [] 0 "http://f/F" true
        (some [⟨"subscription-filter-constraints", some "c1"⟩]) none).1 =
      .rejected "Invalid constraint: 'c1'." := by decide

example :
    (createFilter [] 0 "http://f/F" true
        (some [⟨"subscription-filter-constraints", some "c1"⟩]) none).2.1 ≠ [] := by decide

/-- The objects of the `rdf:rest` edges leaving a node, in store order. -/
def restTargets (store : Store) (n : Term) : List Term :=
  (store.filter (fun t => t.s == n && t.p == "rdf:rest")).map Triple.o

/-- The objects of the `rdf:first` edges leaving a node, in store order. -/
def firstsOf (store : Store) (n : Term) : List Term :=
  (store.filter (fun t => t.s == n && t.p == "rdf:first")).map Triple.o

/-- Worklist closure of the `rdf:rest*` property path: the nodes reachable
from the frontier, accumulated in visit order with a visited set, as a SPARQL
engine computes a `*` path (terminating even on cyclic data).  The fuel
argument only bounds the loop; `restStar` passes enough fuel for any store. -/
def restStarAux (store : Store) : Nat → List Term → List Term → List Term
  | 0, visited, _ => visited
  | _ + 1, visited, [] => visited
  | k + 1, visited, n :: frontier =>
    if n ∈ visited then restStarAux store k visited frontier
    else restStarAux store k (visited ++ [n]) (frontier ++ restTargets store n)

/-- The nodes `head rdf:rest* ?n` reaches, in breadth-first visit order. -/
def restStar (store : Store) (head : Term) : List Term :=
  restStarAux store ((store.length + 1) * (store.length + 1) + 1) [] [head]

/-- The solutions of `?constraintList rdf:rest*/rdf:first ?constraint` from a
chain head, in visit order: for each reachable node, its `rdf:first` values. -/
def chainMembers (store : Store) (head : Term) : List Term :=
  (restStar store head).flatMap (firstsOf store)

/-- The first solution of `?filter ?andOr ?constraintList` with
`VALUES ?andOr { sh:and sh:or }` (findFilter's combinator lookup), in store
order: the combinator edge and the chain head it points to. -/
def combinatorOf (store : Store) (uri : String) : Option (String × Term) :=
  ((store.filter (fun t =>
      t.s == .named uri && (t.p == "sh:and" || t.p == "sh:or"))).head?).map
    (fun t => (t.p, t.o))

/-- A filter tree as `findFilter` returns it to the frontend: the id, the
`require-all` flag, the constraints that resolved, and the sub-filters that
resolved, each in decoded member order. -/
inductive FilterTree where
  | mk (fid : String) (requireAll : Bool)
       (constraints : List ConstraintRec) (subFilters : List FilterTree)

/-- The id of a loaded filter tree. -/
def FilterTree.fid : FilterTree → String
  | .mk i _ _ _ => i

/-- The `require-all` flag of a loaded filter tree. -/
def FilterTree.requireAll : FilterTree → Bool
  | .mk _ r _ _ => r

/-- The resolved constraints of a loaded filter tree. -/
def FilterTree.constraints : FilterTree → List ConstraintRec
  | .mk _ _ cs _ => cs

/-- The resolved sub-filters of a loaded filter tree. -/
def FilterTree.subFilters : FilterTree → List FilterTree
  | .mk _ _ _ fs => fs

/-- `findFilter(uri)` (queries.js lines 610-652).  The SELECT aggregates the
`rdf:rest*/rdf:first` members of the filter's combinator chain with
`GROUP_CONCAT` and no `ORDER BY`, so the member order is whatever order the
store returns solutions in; `sel` is that store-chosen order (any permutation
of the members).  With no combinator edge the filter does not exist
(`some none`, the source's `undefined`).  Otherwise every member is fed both
to `findConstraint` and recursively to `findFilter`, keeping the truthy
results as `constraints` and `sub-filters`.  The source recursion carries no
visited set and no depth bound; it is modelled with a fuel argument that
each recursive call decrements, `none` meaning the fuel is exhausted — the
JS call diverges exactly when every fuel bound is exhausted. -/
def findFilterFuel (sel : List Term → List Term) (store : Store) :
    Nat → String → Option (Option FilterTree)
  | 0, _ => none
  | fuel + 1, uri =>
    match combinatorOf store uri with
    | none => some none
    | some (andOr, listHead) =>
      let members := sel (chainMembers store listHead)
      let cs := members.filterMap (fun m => findConstraint store (termValue m))
      let subResults := members.map (fun m => findFilterFuel sel store fuel (termValue m))
      if subResults.any (fun r => r.isNone) then none
      else
        some (some (.mk (lastSegment uri) (andOr == "sh:and") cs
          ((subResults.filterMap id).filterMap id)))

/-- The identity member order: the store returns the chain members in chain
order (the behaviour the round-trip property needs, but one SPARQL does not
promise). -/
def selId : List Term → List Term := fun l => l

/-- A store that returns the aggregated members in reverse order — a
permutation of the solution multiset, which SPARQL permits for an
aggregation with no `ORDER BY`. -/
def selRev : List Term → List Term := fun l => l.reverse

/-- The child identifiers of a loaded filter, constraints first then
sub-filters, as the result object lists them. -/
def childIds (t : FilterTree) : List String :=
  t.constraints.map ConstraintRec.cid ++ t.subFilters.map FilterTree.fid

/-- The child identifiers through the `Option (Option FilterTree)` result. -/
def loadedChildIds (r : Option (Option FilterTree)) : Option (Option (List String)) :=
  r.map (fun x => x.map childIds)

/-- The store after creating constraint `c1` (`title textContains station`)
and constraint `c2` (`description exists`), starting from an empty store. -/
def exampleConstraintStore : Store :=
  (createConstraint
    (createConstraint [] 0
      "http://lokaalbeslist.be/subscriptions/constraints/c1"
      "title" "textContains" "station").2.1
    0
    "http://lokaalbeslist.be/subscriptions/constraints/c2"
    "description" "exists" "").2.1

/-- The submitted references for the example filter: constraints `c1`, `c2`
in that order. -/
def exampleRefs : List JsonRef :=
  [⟨"subscription-filter-constraints", some "c1"⟩,
   ⟨"subscription-filter-constraints", some "c2"⟩]

/-- The example filter URI. -/
def exampleFilterUri : String := "http://lokaalbeslist.be/subscriptions/filters/F"

/-- The store after `createFilter` persists the example filter over `c1`, `c2`
(submitted in that order) on top of the two constraints. -/
def exampleFilterStore : Store :=
  (createFilter exampleConstraintStore 0 exampleFilterUri true (some exampleRefs) none).2.1

example :
    (createFilter exampleConstraintStore 0 exampleFilterUri true (some exampleRefs) none).1 =
      .resolved := by decide

example :
    loadedChildIds (findFilterFuel selId exampleFilterStore 2 exampleFilterUri) =
      some (some ["c1", "c2"]) := by decide

example :
    loadedChildIds (findFilterFuel selRev exampleFilterStore 2 exampleFilterUri) =
      some (some ["c2", "c1"]) := by decide

/-- A URI for a filter whose stored child list contains the filter itself. -/
def cyclicFilterUri : String := "http://lokaalbeslist.be/subscriptions/filters/A"

/-- A stored filter graph with a cyclic sub-filter reference: filter `A` has an
`sh:and` chain whose single member is `A` itself. -/
def cyclicStore : Store :=
  [⟨.named cyclicFilterUri, "sh:and", .listNode 0⟩,
   ⟨.listNode 0, "rdf:first", .named cyclicFilterUri⟩,
   ⟨.listNode 0, "rdf:rest", .nil⟩]

example : chainMembers cyclicStore (.listNode 0) = [.named cyclicFilterUri] := by decide

example : (findFilterFuel selId cyclicStore 0 cyclicFilterUri).isNone = true := by decide

example : (findFilterFuel selId cyclicStore 5 cyclicFilterUri).isNone = true := by decide

/-- The triples `sendSubscriptionEmail(email, token)` (queries.js lines
850-868) INSERTs into the email graph: a fresh `nmo:Email` resource with the
fixed sender and subject, the subscriber's address, and the message body
carrying the preferences link with the access token.  The constant Dutch
HTML of the body is abbreviated to the token-bearing link it contains. -/
def emailTriples (c : Nat) (email token : String) : List Triple :=
  [⟨.emailNode c, "rdf:type", .named "nmo:Email"⟩,
   ⟨.emailNode c, "nmo:messageFrom", .lit "lokaalbeslist@semantic.works"⟩,
   ⟨.emailNode c, "nmo:emailTo", .lit email⟩,
   ⟨.emailNode c, "nmo:messageSubject", .lit "Inschrijving notificaties LokaalBeslist.be"⟩,
   ⟨.emailNode c, "nmo:htmlMessageContent",
     .lit ("http://lokaalbeslist.be/subscriptions?token=" ++ token)⟩]

/-- `sendSubscriptionEmail(email, token)`: INSERT the email triples, minting
one fresh email id. -/
def sendSubscriptionEmail (store : Store) (c : Nat) (email token : String) : Store × Nat :=
  (store ++ emailTriples c email token, c + 1)

/-- True when the triple is a `schema:email` fact for the given address whose
subject is also a `schema:Person` somewhere in the store — one solution of
addSubscription's user SELECT. -/
def personEmailMatch (store : Store) (email : String) (t : Triple) : Bool :=
  t.p == "schema:email" && t.o == .lit email &&
    store.any (fun t2 =>
      t2.s == t.s && t2.p == "rdf:type" && t2.o == .named "schema:Person")

/-- The bindings of addSubscription's SELECT
`?user a schema:Person; schema:email "email"`, in store order. -/
def userBindings (store : Store) (email : String) : List Term :=
  (store.filter (personEmailMatch store email)).map Triple.s

/-- `addSubscription(filterUri, email)` (queries.js lines 879-926): looks the
user up by email; with no binding it mints a user URI and an opaque password
token (both `uuid()`), INSERTs the `schema:Person` triples, sends the
subscription email (minting one more uuid for the email id), and finally
INSERTs the `ext:hasSubscription` edge; with a binding it reuses
`bindings[0].user` and only INSERTs the edge.  The password token is the
decimal rendering of its uuid counter value. -/
def addSubscription (store : Store) (c : Nat) (filterUri email : String) : Store × Nat :=
  match (userBindings store email).head? with
  | none =>
    let userURI := Term.userNode c
    let userPassword := Nat.repr (c + 1)
    let store1 := store ++
      [⟨userURI, "rdf:type", .named "schema:Person"⟩,
       ⟨userURI, "schema:email", .lit email⟩,
       ⟨userURI, "account:password", .lit userPassword⟩]
    let sent := sendSubscriptionEmail store1 (c + 2) email userPassword
    (sent.1 ++ [⟨userURI, "ext:hasSubscription", .named filterUri⟩], sent.2)
  | some u =>
    (store ++ [⟨u, "ext:hasSubscription", .named filterUri⟩], c)

example :
    (addSubscription [] 0 "http://f/F" "a@example.com").2 = 3 := by decide

example :
    userBindings (addSubscription [] 0 "http://f/F" "a@example.com").1 "a@example.com" =
      [Term.userNode 0] := by decide

example :
    (addSubscription
      (addSubscription [] 0 "http://f/F" "a@example.com").1 3
      "http://f/G" "a@example.com").2 = 3 := by decide

/-- C5: `createFilter` called with both reference lists empty (or absent, as
the JS signature allows) rejects with the dedicated error
`Need at least one constraint or subFilter`, leaves the store unchanged (no
childless filter node is written) and mints no identifier. -/
theorem createFilter_rejects_empty_children (store : Store) (c : Nat)
    (filterUri : String) (requireAll : Bool) :
    createFilter store c filterUri requireAll none none =
        (.rejected "Need at least one constraint or subFilter", store, c)
    ∧ createFilter store c filterUri requireAll (some []) none =
        (.rejected "Need at least one constraint or subFilter", store, c)
    ∧ createFilter store c filterUri requireAll none (some []) =
        (.rejected "Need at least one constraint or subFilter", store, c)
    ∧ createFilter store c filterUri requireAll (some []) (some []) =
        (.rejected "Need at least one constraint or subFilter", store, c) :=
  ⟨rfl, rfl, rfl, rfl⟩

/-- C2 (code bug): `createFilter` issues the filter INSERT even when a
reference fails verification.  In the source the verification promises are
never pushed onto the `promises` array that gates the write, so
`Promise.all(promises)` resolves immediately and `updateSudo` runs no matter
what the verifications found.  Concretely: against an empty store the single
constraint reference `c1` fails verification and the promise rejects, yet
the store now contains the filter's `sh:and` edge and its chain. -/
theorem createFilter_writes_despite_invalid_reference :
    (createFilter [] 0 "http://lokaalbeslist.be/subscriptions/filters/F" true
        (some [⟨"subscription-filter-constraints", some "c1"⟩]) none).1 =
      .rejected "Invalid constraint: 'c1'."
    ∧ verifyConstraint [] ⟨"subscription-filter-constraints", some "c1"⟩ = false
    ∧ ⟨.named "http://lokaalbeslist.be/subscriptions/filters/F", "sh:and", .listNode 0⟩ ∈
        (createFilter [] 0 "http://lokaalbeslist.be/subscriptions/filters/F" true
          (some [⟨"subscription-filter-constraints", some "c1"⟩]) none).2.1
    ∧ (createFilter [] 0 "http://lokaalbeslist.be/subscriptions/filters/F" true
        (some [⟨"subscription-filter-constraints", some "c1"⟩]) none).2.1 ≠ ([] : Store) := by
  refine ⟨by decide, by decide, by decide, by decide⟩

/-- C1 (code bug): the create/load round trip does not preserve child order,
because `findFilter` aggregates the chain members with `GROUP_CONCAT` and no
`ORDER BY` or explicit first/rest walk, so the member order is whatever the
store returns.  Concretely: constraints `c1`, `c2` exist, the filter is
created over `[c1, c2]` (and `createFilter` resolves), and a store returning
the aggregate in reverse order — a permutation of the solution multiset,
which SPARQL permits — makes `findFilter` return children `[c2, c1]`, not the
submitted order; the identity order would have returned `[c1, c2]`. -/
theorem findFilter_round_trip_loses_order :
    (createFilter exampleConstraintStore 0 exampleFilterUri true (some exampleRefs) none).1 =
        .resolved
    ∧ exampleRefs.map (fun r => jsStr r.id) = ["c1", "c2"]
    ∧ (∀ l : List Term, (selRev l).Perm l)
    ∧ loadedChildIds (findFilterFuel selRev exampleFilterStore 2 exampleFilterUri) =
        some (some ["c2", "c1"])
    ∧ loadedChildIds (findFilterFuel selId exampleFilterStore 2 exampleFilterUri) =
        some (some ["c1", "c2"])
    ∧ ["c2", "c1"] ≠ ["c1", "c2"] := by
  refine ⟨by decide, by decide, fun l => List.reverse_perm l, by decide, by decide, by decide⟩

/-- C6: every name outside the field vocabulary makes `mapSubject` yield
`undefined`, every operator outside the operator vocabulary makes
`mapPredicateObject` yield `undefined`, and `createConstraint` turns each
into a rejection naming the offending field, issuing no store write. -/
theorem mapper_rejects_unknown_vocabulary (store : Store) (c : Nat)
    (uri name op object : String)
    (hn : name ∉ fieldVocab) (ho : op ∉ operatorVocab) :
    mapSubject c name = none
    ∧ mapPredicateObject op object = none
    ∧ createConstraint store c uri name op object =
        (.rejected ("Invalid subject: " ++ name), store, c)
    ∧ (createConstraint store c uri "title" op object).1 =
        .rejected ("Invalid predicate: " ++ op) := by
  simp only [fieldVocab, List.mem_cons, List.not_mem_nil, or_false, not_or] at hn
  simp only [operatorVocab, List.mem_cons, List.not_mem_nil, or_false, not_or] at ho
  obtain ⟨h1, h2, h3, h4, h5⟩ := hn
  obtain ⟨g1, g2, g3, g4, g5⟩ := ho
  have hm : mapSubject c name = none := by
    simp [mapSubject, h1, h2, h3, h4, h5]
  have hmo : mapPredicateObject op object = none := by
    simp [mapPredicateObject, g1, g2, g3, g4, g5]
  refine ⟨hm, hmo, by simp [createConstraint, hm], by simp [createConstraint, mapSubject, hmo]⟩

/-- Witness for `mapper_rejects_unknown_vocabulary` at the spec's own
examples `not-a-real-field` and `not-a-real-op`. -/
theorem mapper_rejects_unknown_vocabulary_witness :
    mapSubject 0 "not-a-real-field" = none
    ∧ mapPredicateObject "not-a-real-op" "x" = none :=
  ⟨(mapper_rejects_unknown_vocabulary [] 0 "http://x/c" "not-a-real-field"
      "not-a-real-op" "x" (by decide) (by decide)).1,
   (mapper_rejects_unknown_vocabulary [] 0 "http://x/c" "not-a-real-field"
      "not-a-real-op" "x" (by decide) (by decide)).2.1⟩

/-- C9 (code bug): loading a filter does not always terminate.  `findFilter`
recurses into every chain member with no visited set and no depth bound, so
on a stored filter graph whose sub-filter references form a cycle — here
filter `A` whose child list contains `A` itself — the recursion never
terminates: every fuel bound is exhausted, whatever order the store returns
the members in. -/
theorem findFilter_cyclic_store_diverges :
    ∀ fuel : Nat, findFilterFuel selId cyclicStore fuel cyclicFilterUri = none := by
  intro fuel
  induction fuel with
  | zero => rfl
  | succ n ih =>
    have hco : combinatorOf cyclicStore cyclicFilterUri =
        some ("sh:and", Term.listNode 0) := by decide
    have hmem : chainMembers cyclicStore (Term.listNode 0) =
        [Term.named cyclicFilterUri] := by decide
    simp only [findFilterFuel, hco, hmem, selId, List.map_cons, List.map_nil,
      termValue, List.any_cons, List.any_nil, ih, Option.isNone_none, Bool.true_or,
      if_true]

/-- JS indexing at `items.length - 1` returns the last element whenever the
list is non-empty, written through the concat decomposition. -/
theorem jsIndex_last (xs : List String) (y : String) :
    jsIndex (xs ++ [y]) (((xs ++ [y]).length : Int) - 1) = some y := by
  have hlen : (xs ++ [y]).length = xs.length + 1 := by simp
  simp only [jsIndex, hlen]
  rw [if_neg (by omega)]
  have hsub : ((xs.length + 1 : Nat) : Int) - 1 = ((xs.length : Nat) : Int) := by omega
  rw [hsub, Int.toNat_ofNat]
  exact List.getElem?_concat_length xs y

/-- The last triple `createListQuery` emits always terminates the chain with
`rdf:rest rdf:nil`, whatever the input. -/
theorem createListQuery_last_is_nil (c : Nat) (items : List String) :
    ((createListQuery c items).2.1.getLast?).map Triple.o = some Term.nil := by
  have h : (createListQuery c items).2.1 =
      ((chainLoop c (c + 1) items.dropLast).1 ++
        [⟨.listNode (chainLoop c (c + 1) items.dropLast).2.1, "rdf:first",
          jsFragment (jsIndex items ((items.length : Int) - 1))⟩]) ++
        [⟨.listNode (chainLoop c (c + 1) items.dropLast).2.1, "rdf:rest", Term.nil⟩] := by
    simp [createListQuery]
  rw [h, List.getLast?_concat]
  rfl

/-- The loop of `createListQuery`, run over the initial segment `xs`, followed
by the final item `y`, produces exactly the per-item chain `chainTriples`,
and its counter lands at `c + xs.length + 1`: one fresh identifier per item. -/
theorem chainLoop_concat (y : String) :
    ∀ (xs : List String) (c : Nat),
      (chainLoop c (c + 1) xs).1 ++
          [⟨.listNode (chainLoop c (c + 1) xs).2.1, "rdf:first", .named y⟩,
           ⟨.listNode (chainLoop c (c + 1) xs).2.1, "rdf:rest", .nil⟩] =
        chainTriples c (xs ++ [y])
      ∧ (chainLoop c (c + 1) xs).2.2 = c + xs.length + 1 := by
  intro xs
  induction xs with
  | nil => intro c; exact ⟨rfl, rfl⟩
  | cons x xs ih =>
    intro c
    obtain ⟨ih1, ih2⟩ := ih (c + 1)
    rcases hxy : xs ++ [y] with _ | ⟨w, ws⟩
    · exact absurd hxy (by simp)
    · constructor
      · simp only [chainLoop, List.cons_append]
        rw [ih1, hxy]
        rfl
      · simp only [chainLoop, List.length_cons]
        rw [ih2]
        omega

/-- C3 counterexample at the empty sequence: the encoder still allocates a
node and emits two triples for zero items (its `rdf:first` carries the
interpolated `undefined`), so the per-item chain description fails there. -/
theorem createListQuery_empty_not_per_item :
    (createListQuery 0 []).2.1 ≠ chainTriples 0 []
    ∧ (createListQuery 0 []).2.2 ≠ 0 + ([] : List String).length := by decide

/-- C3 (amended to non-empty inputs): for every non-empty item sequence the
encoder returns its head node `c`, emits exactly the chain that allocates one
fresh node per item (`c + k` for the `k`-th item), links each node's
`rdf:first` to its item and its `rdf:rest` to the next fresh node in input
order, terminates the last node with `rdf:nil`, and advances the uuid counter
by exactly the number of items. -/
theorem createListQuery_encodes_chain (c : Nat) (items : List String)
    (h : items ≠ []) :
    createListQuery c items = (c, chainTriples c items, c + items.length) := by
  obtain ⟨xs, y, rfl⟩ : ∃ xs y, items = xs ++ [y] :=
    ⟨items.dropLast, items.getLast h, (List.dropLast_concat_getLast h).symm⟩
  obtain ⟨h1, h2⟩ := chainLoop_concat y xs c
  simp only [createListQuery, List.dropLast_concat]
  rw [jsIndex_last]
  simp only [jsFragment, Prod.mk.injEq]
  refine ⟨by trivial, h1, ?_⟩
  rw [h2]
  simp only [List.length_append, List.length_cons, List.length_nil]
  omega

/-- Witness for `createListQuery_encodes_chain` at the two-item sequence. -/
theorem createListQuery_encodes_chain_witness :
    createListQuery 0 ["a", "b"] = (0, chainTriples 0 ["a", "b"], 0 + ["a", "b"].length) :=
  createListQuery_encodes_chain 0 ["a", "b"] (by decide)

/-- C10: on the empty sequence `createListQuery` reads
`items[items.length - 1]`, i.e. index `-1`, one position before the start,
which is JS `undefined`, and emits the two-triple fragment embedding that
undefined value — not a valid chain over zero items; on every non-empty
sequence the index read is in range (it is the last element) and the final
`rdf:rest` is the `rdf:nil` sentinel. -/
theorem createListQuery_empty_vs_nonempty (c : Nat) (items : List String)
    (h : items ≠ []) :
    createListQuery c [] =
        (c, [⟨.listNode c, "rdf:first", .undefined⟩, ⟨.listNode c, "rdf:rest", .nil⟩], c + 1)
    ∧ jsIndex [] ((([] : List String).length : Int) - 1) = none
    ∧ jsIndex items ((items.length : Int) - 1) = some (items.getLast h)
    ∧ ((createListQuery c items).2.1.getLast?).map Triple.o = some Term.nil := by
  refine ⟨rfl, rfl, ?_, createListQuery_last_is_nil c items⟩
  conv_lhs => rw [← List.dropLast_concat_getLast h]
  exact jsIndex_last items.dropLast (items.getLast h)

/-- Witness for `createListQuery_empty_vs_nonempty` at the singleton. -/
theorem createListQuery_empty_vs_nonempty_witness :
    jsIndex ["a"] (((["a"] : List String).length : Int) - 1) =
      some (["a"].getLast (by decide)) :=
  (createListQuery_empty_vs_nonempty 0 ["a"] (by decide)).2.2.1

/-- C4: when the submitted sub-filter reference list contains two or more
references that fail verification (and the constraint references all pass),
`createFilter` rejects with exactly one error message that joins every
invalid sub-filter id — `Invalid sub-filter: 'id1', 'id2', ...` — and every
reference that fails verification is in that enumerated list. -/
theorem createFilter_aggregates_invalid_subfilters (store : Store) (c : Nat)
    (filterUri : String) (requireAll : Bool)
    (constraints : Option (List JsonRef)) (subFilters : List JsonRef)
    (hc : invalidRefs verifyConstraint store constraints = [])
    (hs : 2 ≤ (invalidRefs verifyFilter store (some subFilters)).length) :
    (createFilter store c filterUri requireAll constraints (some subFilters)).1 =
        .rejected ("Invalid sub-filter: '" ++
          String.intercalate "', '"
            ((invalidRefs verifyFilter store (some subFilters)).map (fun x => jsStr x.id)) ++
          "'.")
    ∧ ∀ r ∈ subFilters, verifyFilter store r = false →
        r ∈ invalidRefs verifyFilter store (some subFilters) := by
  have hne : subFilters ≠ [] := by
    intro h0
    rw [h0] at hs
    simp [invalidRefs] at hs
  have hpos : 0 < subFilters.length := List.length_pos.mpr hne
  have hinv : invalidRefs verifyFilter store (some subFilters) =
      subFilters.filter (fun r => !(verifyFilter store r)) := by
    simp [invalidRefs, hpos]
  constructor
  · have hreq : ¬((((constraints.getD []).map (fun r => constraintUriOf r.id) ++
        subFilters.map (fun r => filterUriOf r.id)).length == 0) = true) := by
      simp only [List.length_append, List.length_map, beq_iff_eq]
      omega
    have hcerr : refError "Invalid constraint" (invalidRefs verifyConstraint store constraints) =
        none := by
      rw [hc]
      rfl
    have hserr : refError "Invalid sub-filter" (invalidRefs verifyFilter store (some subFilters)) =
        some ("Invalid sub-filter: '" ++
          String.intercalate "', '"
            ((invalidRefs verifyFilter store (some subFilters)).map (fun x => jsStr x.id)) ++
          "'.") := by
      rw [refError, if_neg (by simp only [beq_iff_eq]; omega), if_pos (by omega)]
      rfl
    simp only [createFilter, hcerr, hserr, Option.getD_some]
    rw [if_neg hreq]
  · intro r hr hv
    rw [hinv]
    exact List.mem_filter.mpr ⟨hr, by simp [hv]⟩

/-- Witness for `createFilter_aggregates_invalid_subfilters`: two invalid
sub-filter references against the empty store, one joined error naming both. -/
theorem createFilter_aggregates_invalid_subfilters_witness :
    (createFilter [] 0 "http://lokaalbeslist.be/subscriptions/filters/F" false none
        (some [⟨"subscription-filters", some "f1"⟩, ⟨"subscription-filters", some "f2"⟩])).1 =
      .rejected ("Invalid sub-filter: '" ++
        String.intercalate "', '"
          ((invalidRefs verifyFilter []
            (some [⟨"subscription-filters", some "f1"⟩,
                   ⟨"subscription-filters", some "f2"⟩])).map (fun x => jsStr x.id)) ++
        "'.") :=
  (createFilter_aggregates_invalid_subfilters [] 0
    "http://lokaalbeslist.be/subscriptions/filters/F" false none
    [⟨"subscription-filters", some "f1"⟩, ⟨"subscription-filters", some "f2"⟩]
    (by decide) (by decide)).1

/-- C8: after `createConstraint` succeeds for a valid subject and predicate
and any object string, `findConstraint` on the created URI returns exactly
the submitted subject, predicate and object values (with the last URI
segment as id).  The URI is assumed fresh — in the service it is always a
freshly minted uuid URI — so the SELECT's first binding is the one just
written. -/
theorem createConstraint_find_round_trip (store : Store) (c : Nat)
    (uri subject predicate object : String)
    (ns : PathExpr) (c₁ : Nat) (sh : ShaclFragment)
    (hm : mapSubject c subject = some (ns, c₁))
    (hp : mapPredicateObject predicate object = some sh)
    (hfresh : ∀ t ∈ store, t.s ≠ Term.named uri) :
    (createConstraint store c uri subject predicate object).1 = .resolved
    ∧ findConstraint (createConstraint store c uri subject predicate object).2.1 uri =
        some ⟨lastSegment uri, subject, predicate, object⟩ := by
  have hstore : ∀ p : String,
      store.filter (fun t => t.s == Term.named uri && t.p == p) = [] := by
    intro p
    rw [List.filter_eq_nil_iff]
    intro t ht
    simp [hfresh t ht]
  simp only [createConstraint, hm, hp]
  refine ⟨by trivial, ?_⟩
  simp only [findConstraint, selectOne, List.filter_append, hstore, List.nil_append,
    List.filter_cons, List.filter_nil, beq_self_eq_true, Bool.and_self, Bool.true_and,
    decide_eq_true_eq]
  simp [termValue]

/-- Witness for `createConstraint_find_round_trip` at the spec's example
constraint (`title textContains station`) against the empty store. -/
theorem createConstraint_find_round_trip_witness :
    findConstraint
        (createConstraint [] 0 "http://lokaalbeslist.be/subscriptions/constraints/c1"
          "title" "textContains" "station").2.1
        "http://lokaalbeslist.be/subscriptions/constraints/c1" =
      some ⟨lastSegment "http://lokaalbeslist.be/subscriptions/constraints/c1",
            "title", "textContains", "station"⟩ :=
  (createConstraint_find_round_trip [] 0
    "http://lokaalbeslist.be/subscriptions/constraints/c1" "title" "textContains" "station"
    (.direct "terms:title") 0 (.pattern "station" "i") rfl rfl
    (by intro t ht; cases ht)).2

/-- C7: subscriber resolution is idempotent per email.  Against a store with
no subscriber for the email (and with the minted user id fresh, as uuids
are), the first `addSubscription` call creates exactly one `schema:Person`
with a freshly generated `account:password` token and sends the notification
email; afterwards the lookup resolves to exactly that subscriber; and a
second call with the same email reuses the same subscriber id, writes only
the `ext:hasSubscription` edge — no new person, no new token (the uuid
counter does not move), no notification email. -/
theorem addSubscription_idempotent_per_email (store : Store) (c : Nat)
    (f₁ f₂ email : String)
    (h0 : userBindings store email = [])
    (hfresh : ∀ t ∈ store, t.s ≠ Term.userNode c) :
    addSubscription store c f₁ email =
      (store ++
        [⟨.userNode c, "rdf:type", .named "schema:Person"⟩,
         ⟨.userNode c, "schema:email", .lit email⟩,
         ⟨.userNode c, "account:password", .lit (Nat.repr (c + 1))⟩] ++
        emailTriples (c + 2) email (Nat.repr (c + 1)) ++
        [⟨.userNode c, "ext:hasSubscription", .named f₁⟩], c + 3)
    ∧ userBindings (addSubscription store c f₁ email).1 email = [Term.userNode c]
    ∧ addSubscription (addSubscription store c f₁ email).1
        (addSubscription store c f₁ email).2 f₂ email =
        ((addSubscription store c f₁ email).1 ++
           [⟨.userNode c, "ext:hasSubscription", .named f₂⟩],
         (addSubscription store c f₁ email).2) := by
  have h0m : ∀ t ∈ store, personEmailMatch store email t = false := by
    intro t ht
    have hf : store.filter (personEmailMatch store email) = [] := by
      have h0' := h0
      unfold userBindings at h0'
      exact List.map_eq_nil_iff.mp h0'
    have := List.filter_eq_nil_iff.mp hf t ht
    simpa using this
  have hhead : (userBindings store email).head? = none := by rw [h0]; rfl
  have part1 : addSubscription store c f₁ email =
      (store ++
        [⟨.userNode c, "rdf:type", .named "schema:Person"⟩,
         ⟨.userNode c, "schema:email", .lit email⟩,
         ⟨.userNode c, "account:password", .lit (Nat.repr (c + 1))⟩] ++
        emailTriples (c + 2) email (Nat.repr (c + 1)) ++
        [⟨.userNode c, "ext:hasSubscription", .named f₁⟩], c + 3) := by
    unfold addSubscription
    rw [hhead]
    rfl
  have hstoreP : ∀ t ∈ store,
      personEmailMatch
        (store ++
          [⟨.userNode c, "rdf:type", .named "schema:Person"⟩,
           ⟨.userNode c, "schema:email", .lit email⟩,
           ⟨.userNode c, "account:password", .lit (Nat.repr (c + 1))⟩] ++
          emailTriples (c + 2) email (Nat.repr (c + 1)) ++
          [⟨.userNode c, "ext:hasSubscription", .named f₁⟩]) email t = false := by
    intro t ht
    cases hP : personEmailMatch
        (store ++
          [⟨.userNode c, "rdf:type", .named "schema:Person"⟩,
           ⟨.userNode c, "schema:email", .lit email⟩,
           ⟨.userNode c, "account:password", .lit (Nat.repr (c + 1))⟩] ++
          emailTriples (c + 2) email (Nat.repr (c + 1)) ++
          [⟨.userNode c, "ext:hasSubscription", .named f₁⟩]) email t with
    | false => rfl
    | true =>
      exfalso
      unfold personEmailMatch at hP
      rw [Bool.and_eq_true, Bool.and_eq_true] at hP
      obtain ⟨⟨hp, ho⟩, hany2⟩ := hP
      rw [List.any_eq_true] at hany2
      obtain ⟨t2, ht2, hcond⟩ := hany2
      rw [Bool.and_eq_true, Bool.and_eq_true] at hcond
      obtain ⟨⟨hs2, hp2⟩, ho2⟩ := hcond
      rw [beq_iff_eq] at hs2 hp2 ho2 hp ho
      simp only [emailTriples, List.mem_append, List.mem_cons, List.not_mem_nil,
        or_false] at ht2
      rcases ht2 with ((hmem | hA) | hE) | rfl
      · have hmatch : personEmailMatch store email t = true := by
          unfold personEmailMatch
          rw [Bool.and_eq_true, Bool.and_eq_true]
          refine ⟨⟨by simp [hp], by simp [ho]⟩, ?_⟩
          rw [List.any_eq_true]
          exact ⟨t2, hmem, by simp [hs2, hp2, ho2]⟩
        rw [h0m t ht] at hmatch
        exact Bool.false_ne_true hmatch
      · rcases hA with rfl | rfl | rfl
        · exact hfresh t ht hs2.symm
        · simp at hp2
        · simp at hp2
      · rcases hE with rfl | rfl | rfl | rfl | rfl
        · simp at ho2
        · simp at hp2
        · simp at hp2
        · simp at hp2
        · simp at hp2
      · simp at hp2
  have hsf : store.filter
      (personEmailMatch
        (store ++
          [⟨.userNode c, "rdf:type", .named "schema:Person"⟩,
           ⟨.userNode c, "schema:email", .lit email⟩,
           ⟨.userNode c, "account:password", .lit (Nat.repr (c + 1))⟩] ++
          emailTriples (c + 2) email (Nat.repr (c + 1)) ++
          [⟨.userNode c, "ext:hasSubscription", .named f₁⟩]) email) = [] := by
    rw [List.filter_eq_nil_iff]
    intro t ht
    rw [hstoreP t ht]
    simp
  have part2 : userBindings (addSubscription store c f₁ email).1 email =
      [Term.userNode c] := by
    simp only [part1]
    unfold userBindings
    rw [List.filter_append, List.filter_append, List.filter_append, hsf, List.nil_append]
    simp [personEmailMatch, emailTriples, List.any_append]
  refine ⟨part1, part2, ?_⟩
  have hhead2 : (userBindings (addSubscription store c f₁ email).1 email).head? =
      some (Term.userNode c) := by rw [part2]; rfl
  have hsecond : ∀ (s : Store) (k : Nat) (f : String),
      (userBindings s email).head? = some (Term.userNode c) →
      addSubscription s k f email =
        (s ++ [⟨Term.userNode c, "ext:hasSubscription", .named f⟩], k) := by
    intro s k f hh
    unfold addSubscription
    rw [hh]
  exact hsecond _ _ _ hhead2

/-- Witness for `addSubscription_idempotent_per_email`: two calls for
`a@example.com` against the empty store; the second only adds the edge for
the subscriber the first call created. -/
theorem addSubscription_idempotent_per_email_witness :
    addSubscription
        (addSubscription [] 0 "http://lokaalbeslist.be/subscriptions/filters/F"
          "a@example.com").1
        (addSubscription [] 0 "http://lokaalbeslist.be/subscriptions/filters/F"
          "a@example.com").2
        "http://lokaalbeslist.be/subscriptions/filters/G" "a@example.com" =
      ((addSubscription [] 0 "http://lokaalbeslist.be/subscriptions/filters/F"
          "a@example.com").1 ++
         [⟨Term.userNode 0, "ext:hasSubscription",
           .named "http://lokaalbeslist.be/subscriptions/filters/G"⟩],
       (addSubscription [] 0 "http://lokaalbeslist.be/subscriptions/filters/F"
          "a@example.com").2) :=
  (addSubscription_idempotent_per_email [] 0
    "http://lokaalbeslist.be/subscriptions/filters/F"
    "http://lokaalbeslist.be/subscriptions/filters/G" "a@example.com"
    rfl (by simp)).2.2
